import Mathlib

/-!
Shallow embedding of the CBO membership / savings / loans core of the
repository: the PostgreSQL tables and trigger functions from
`supabase/migrations/*.sql` and the mutating operations issued by the React
dashboard components (`LoansSection.tsx`, `MembersSection.tsx`,
`LoanApplicationForm.tsx`, `SavingsTransactionForm.tsx`).

Monetary DECIMAL(10,2) values are modelled as exact rationals (`Rat`);
SQL `DATE` values as calendar dates; nullable columns as `Option`.

PL/pgSQL semantics modelled faithfully:
* a row-level trigger declared `AFTER INSERT OR UPDATE OR DELETE` receives
  `NEW = NULL`-record on DELETE; referencing a field of the unassigned
  `NEW` record raises the runtime error `record "new" is not assigned yet`,
  which aborts (rolls back) the whole triggering statement.  This is
  modelled by passing `Option` rows to the trigger bodies and returning
  `Except TriggerError`.
* Postgres `LPAD(s, n, c)` truncates `s` to `n` characters when `s` is
  longer; JavaScript `String.prototype.padStart` does not truncate.
* `date + (k || ' months')::INTERVAL` adds `k` calendar months, clamping
  the day to the target month's length.
-/

namespace Cbo

/-- Calendar date (proleptic Gregorian), as stored in SQL `DATE` columns. -/
structure Date where
  year : Nat
  month : Nat
  day : Nat
deriving DecidableEq, Repr

/-- Gregorian leap-year rule. -/
def isLeapYear (y : Nat) : Bool :=
  (y % 4 == 0 && y % 100 != 0) || y % 400 == 0

/-- Number of days in a given month of a given year. -/
def daysInMonth (y m : Nat) : Nat :=
  if m = 2 then (if isLeapYear y then 29 else 28)
  else if m = 4 ∨ m = 6 ∨ m = 9 ∨ m = 11 then 30 else 31

/-- Postgres `date + (n || ' months')::INTERVAL` (result cast back to DATE):
calendar-month addition, clamping the day-of-month to the target month. -/
def addMonths (d : Date) (n : Nat) : Date :=
  let t := d.month - 1 + n
  let y := d.year + t / 12
  let m := t % 12 + 1
  { year := y, month := m, day := min d.day (daysInMonth y m) }

/-- Postgres `LPAD(s, n, c)`: left-pad `s` with `c` to length `n`,
truncating `s` to its first `n` characters when it is longer. -/
def lpad (s : String) (n : Nat) (c : Char) : String :=
  if s.length ≥ n then String.mk (s.data.take n)
  else String.mk (List.replicate (n - s.length) c) ++ s

/-- JavaScript `String.prototype.padStart(n, c)`: left-pad to length `n`,
returning `s` unchanged when it is already at least that long. -/
def jsPadStart (s : String) (n : Nat) (c : Char) : String :=
  if s.length ≥ n then s
  else String.mk (List.replicate (n - s.length) c) ++ s

/-- Values of the `loans.status` CHECK constraint. -/
inductive LoanStatus where
  | pending
  | approved
  | disbursed
  | completed
  | defaulted
deriving DecidableEq, Repr

/-- Values of the `savings.transaction_type` CHECK constraint. -/
inductive TxType where
  | deposit
  | withdrawal
deriving DecidableEq, Repr

/-- Roles of the `public.app_role` enum from the 20251108 migration. -/
inductive AppRole where
  | admin
  | treasurer
  | member
deriving DecidableEq, Repr

/-- Row of `public.members` (columns relevant to the verified operations). -/
structure MemberRow where
  id : Nat
  member_number : String
  user_id : Nat
  full_name : String
  total_savings : Rat
  total_loans : Rat
deriving DecidableEq, Repr

/-- Row of `public.savings`. -/
structure SavingsRow where
  id : Nat
  member_id : Nat
  amount : Rat
  transaction_type : TxType
  transaction_date : Date
  description : Option String
  receipt_number : Option String
  recorded_by : Nat
  balance_after : Option Rat
deriving DecidableEq, Repr

/-- Row of `public.loans`.  `created_year` stands for
`EXTRACT(YEAR FROM created_at)`, the only part of `created_at` that the
code reads (in `generate_loan_number`). -/
structure LoanRow where
  id : Nat
  loan_number : String
  member_id : Nat
  amount : Rat
  interest_rate : Rat
  duration_months : Nat
  purpose : String
  status : LoanStatus
  application_date : Date
  approval_date : Option Date
  due_date : Option Date
  total_amount_due : Option Rat
  amount_paid : Rat
  balance : Option Rat
  created_year : Nat
deriving DecidableEq, Repr

/-- Row of `public.loan_payments`. -/
structure LoanPaymentRow where
  id : Nat
  loan_id : Nat
  amount : Rat
  payment_date : Date
  payment_method : Option String
  recorded_by : Nat
  notes : Option String
deriving DecidableEq, Repr

/-- Row of `public.user_roles` (20251108 migration). -/
structure UserRoleRow where
  user_id : Nat
  role : AppRole
deriving DecidableEq, Repr

/-- The persistent database state: the five tables the core operates on. -/
structure DB where
  members : List MemberRow
  loans : List LoanRow
  loan_payments : List LoanPaymentRow
  savings : List SavingsRow
  user_roles : List UserRoleRow
deriving DecidableEq, Repr

/-- Runtime error raised by a PL/pgSQL trigger body.
`recordNewNotAssigned` is `record "new" is not assigned yet`, raised when a
trigger fired on DELETE dereferences the unassigned `NEW` row; it aborts
and rolls back the triggering statement. -/
inductive TriggerError where
  | recordNewNotAssigned
deriving DecidableEq, Repr

instance {ε α : Type} [DecidableEq ε] [DecidableEq α] :
    DecidableEq (Except ε α) := fun a b =>
  match a, b with
  | Except.ok x, Except.ok y => decidable_of_iff (x = y) (by simp)
  | Except.error x, Except.error y => decidable_of_iff (x = y) (by simp)
  | Except.ok _, Except.error _ => isFalse (by simp)
  | Except.error _, Except.ok _ => isFalse (by simp)

/-- The subselect of `update_member_totals`:
`COALESCE(SUM(CASE WHEN transaction_type = 'deposit' THEN amount ELSE -amount END), 0)`
over `savings WHERE member_id = memberId` (empty set gives 0). -/
def signedSavingsSum (txs : List SavingsRow) (memberId : Nat) : Rat :=
  ((txs.filter (fun s => s.member_id = memberId)).map
    (fun s => match s.transaction_type with
      | TxType.deposit => s.amount
      | TxType.withdrawal => -s.amount)).sum

/-- The subselect of `update_loan_balance`:
`COALESCE(SUM(amount), 0)` over `loan_payments WHERE loan_id = loanId`. -/
def paymentsSum (ps : List LoanPaymentRow) (loanId : Nat) : Rat :=
  ((ps.filter (fun q => q.loan_id = loanId)).map (fun q => q.amount)).sum

/-- Trigger function `update_member_totals()` (AFTER INSERT OR UPDATE OR
DELETE ON savings, FOR EACH ROW): sets `members.total_savings` of the member
referenced by `NEW.member_id` to the signed sum of that member's savings
rows.  `newRow = none` models the unassigned `NEW` of a DELETE firing, on
which the body's `NEW.member_id` reference raises an error. -/
def update_member_totals (newRow : Option SavingsRow) (db : DB) :
    Except TriggerError DB :=
  match newRow with
  | none => Except.error TriggerError.recordNewNotAssigned
  | some n =>
    Except.ok { db with members := db.members.map (fun m =>
      if m.id = n.member_id then
        { m with total_savings := signedSavingsSum db.savings n.member_id }
      else m) }

/-- Trigger function `calculate_loan_total()` (BEFORE UPDATE ON loans,
FOR EACH ROW): when the status changes to `approved` from anything else,
sets `total_amount_due = amount + amount * interest_rate / 100`,
`balance = total_amount_due`, `approval_date = CURRENT_DATE` and
`due_date = approval_date + duration_months months`; otherwise returns the
new row unchanged. -/
def calculate_loan_total (today : Date) (old new : LoanRow) : LoanRow :=
  if new.status = LoanStatus.approved ∧ old.status ≠ LoanStatus.approved then
    let tad := new.amount + new.amount * new.interest_rate / 100
    { new with
        total_amount_due := some tad
        , balance := some tad
        , approval_date := some today
        , due_date := some (addMonths today new.duration_months) }
  else new

/-- Trigger function `update_loan_balance()` (AFTER INSERT OR UPDATE OR
DELETE ON loan_payments, FOR EACH ROW): sets the referenced loan's
`amount_paid` to the sum of its payments and `balance` to
`total_amount_due - amount_paid` (NULL when `total_amount_due` is NULL).
The inner `UPDATE public.loans` itself fires `calculate_loan_total`
(BEFORE UPDATE) on each updated loan row.  `newRow = none` models the
unassigned `NEW` of a DELETE firing, which raises an error. -/
def update_loan_balance (today : Date) (newRow : Option LoanPaymentRow)
    (db : DB) : Except TriggerError DB :=
  match newRow with
  | none => Except.error TriggerError.recordNewNotAssigned
  | some n =>
    let s := paymentsSum db.loan_payments n.loan_id
    Except.ok { db with loans := db.loans.map (fun l =>
      if l.id = n.loan_id then
        calculate_loan_total today l
          { l with
              amount_paid := s
              , balance := l.total_amount_due.map (fun t => t - s) }
      else l) }

/-- Trigger function `generate_member_number()` (BEFORE INSERT ON members):
when the inserted row supplies no member number (NULL or empty), generates
`'ALF' || LPAD(count(members) + 1, 4, '0')`; otherwise keeps the supplied
number. -/
def generate_member_number (existing : List MemberRow)
    (supplied : Option String) : String :=
  let generated := "ALF" ++ lpad (toString (existing.length + 1)) 4 '0'
  match supplied with
  | none => generated
  | some s => if s = "" then generated else s

/-- Trigger function `generate_loan_number()` (BEFORE INSERT ON loans):
when the inserted row supplies no loan number (NULL or empty), generates
`'LN' || TO_CHAR(CURRENT_DATE, 'YYYY') || LPAD(count(loans created this year) + 1, 4, '0')`;
otherwise keeps the supplied number. -/
def generate_loan_number (todayYear : Nat) (existing : List LoanRow)
    (supplied : Option String) : String :=
  let generated := "LN" ++ jsPadStart (toString todayYear) 4 '0'
    ++ lpad (toString ((existing.filter
          (fun l => l.created_year = todayYear)).length + 1)) 4 '0'
  match supplied with
  | none => generated
  | some s => if s = "" then generated else s

/-- Statement `INSERT INTO savings` of one row, followed by its AFTER
INSERT row trigger `update_member_totals` (fired with the new row, so it
never errors). -/
def insertSavings (tx : SavingsRow) (db : DB) : DB :=
  let db1 := { db with savings := db.savings ++ [tx] }
  match update_member_totals (some tx) db1 with
  | Except.ok d => d
  | Except.error _ => db

/-- Sequential firing of a row trigger over the affected rows: the first
error aborts the statement. -/
def fireRowTriggers {α : Type} (f : DB → α → Except TriggerError DB)
    (db : DB) : List α → Except TriggerError DB
  | [] => Except.ok db
  | a :: as =>
    match f db a with
    | Except.ok d => fireRowTriggers f d as
    | Except.error e => Except.error e

/-- Statement `UPDATE savings SET ... WHERE id = txId` (the row transform
`f`), followed by the AFTER UPDATE row trigger `update_member_totals`
fired once per affected row with `NEW` = the updated row. -/
def updateSavings (txId : Nat) (f : SavingsRow → SavingsRow) (db : DB) :
    Except TriggerError DB :=
  let affected := db.savings.filter (fun s => s.id = txId)
  let db1 := { db with savings := db.savings.map (fun s =>
    if s.id = txId then f s else s) }
  fireRowTriggers (fun d s => update_member_totals (some (f s)) d) db1
    affected

/-- Statement `DELETE FROM savings WHERE id = txId`, followed by the AFTER
DELETE row trigger `update_member_totals` fired once per deleted row with
`NEW` unassigned; any affected row therefore makes the statement error
(and roll back). -/
def deleteSavings (txId : Nat) (db : DB) : Except TriggerError DB :=
  let affected := db.savings.filter (fun s => s.id = txId)
  let db1 := { db with savings := db.savings.filter (fun s => ¬ s.id = txId) }
  fireRowTriggers (fun d _ => update_member_totals none d) db1 affected

/-- Statement `INSERT INTO loan_payments` of one row, followed by its AFTER
INSERT row trigger `update_loan_balance` (fired with the new row, so it
never errors). -/
def insertLoanPayment (today : Date) (p : LoanPaymentRow) (db : DB) : DB :=
  let db1 := { db with loan_payments := db.loan_payments ++ [p] }
  match update_loan_balance today (some p) db1 with
  | Except.ok d => d
  | Except.error _ => db

/-- Statement `DELETE FROM loan_payments WHERE id = payId`, followed by the
AFTER DELETE row trigger `update_loan_balance` fired with `NEW` unassigned;
any affected row makes the statement error (and roll back). -/
def deleteLoanPayment (today : Date) (payId : Nat) (db : DB) :
    Except TriggerError DB :=
  let affected := db.loan_payments.filter (fun p => p.id = payId)
  let db1 := { db with loan_payments :=
    db.loan_payments.filter (fun p => ¬ p.id = payId) }
  fireRowTriggers (fun d _ => update_loan_balance today none d) db1 affected

/-- Statement `UPDATE loans SET status = st WHERE id = loanId`, with the
BEFORE UPDATE row trigger `calculate_loan_total` applied to each affected
row (OLD = stored row, NEW = row with the new status). -/
def updateLoanStatus (today : Date) (loanId : Nat) (st : LoanStatus)
    (db : DB) : DB :=
  { db with loans := db.loans.map (fun l =>
      if l.id = loanId then
        calculate_loan_total today l { l with status := st }
      else l) }

/-- Statement `INSERT INTO members`, with the BEFORE INSERT trigger
`generate_member_number` filling the member number when none is supplied. -/
def insertMember (supplied : Option String) (row : MemberRow) (db : DB) :
    DB :=
  let num := generate_member_number db.members supplied
  { db with members := db.members ++ [{ row with member_number := num }] }

/-- Statement `INSERT INTO loans`, with the BEFORE INSERT trigger
`generate_loan_number` filling the loan number when none is supplied. -/
def insertLoan (todayYear : Nat) (supplied : Option String) (row : LoanRow)
    (db : DB) : DB :=
  let num := generate_loan_number todayYear db.loans supplied
  { db with loans := db.loans ++ [{ row with loan_number := num }] }

/-- Dashboard operation `confirmPayment` (`LoansSection.tsx`): inserts one
row into `loan_payments` with the entered amount, `payment_method: "cash"`
and a note; the loan's derived fields follow via `update_loan_balance`.
The component itself never updates the `loans` table. -/
def confirmPayment (today : Date) (payId loanId : Nat) (amount : Rat)
    (recordedBy : Nat) (loanNumber : String) (db : DB) : DB :=
  insertLoanPayment today
    { id := payId
      , loan_id := loanId
      , amount := amount
      , payment_date := today
      , payment_method := some "cash"
      , recorded_by := recordedBy
      , notes := some ("Payment recorded for loan " ++ loanNumber) } db

/-- Dashboard operation `confirmApproveLoan` (`LoansSection.tsx`):
`UPDATE loans SET status = 'approved' WHERE id = loanId`; all derived-field
computation happens in the `calculate_loan_total` BEFORE UPDATE trigger. -/
def confirmApproveLoan (today : Date) (loanId : Nat) (db : DB) : DB :=
  updateLoanStatus today loanId LoanStatus.approved db

/-- Form operation `onSubmit` of `SavingsTransactionForm.tsx`
(`recordSavingsTransaction`): inserts one savings row with the form
fields; `balance_after` is never supplied, so it takes the column's NULL
default. -/
def recordSavingsTransaction (today : Date) (txId memberId : Nat)
    (amount : Rat) (ty : TxType) (descr receipt : Option String)
    (recordedBy : Nat) (db : DB) : DB :=
  insertSavings
    { id := txId
      , member_id := memberId
      , amount := amount
      , transaction_type := ty
      , transaction_date := today
      , description := descr
      , receipt_number := receipt
      , recorded_by := recordedBy
      , balance_after := none } db

/-- Form operation `onSubmit` of `LoanApplicationForm.tsx`
(`applyForLoan`): inserts a loan with `loan_number` set to
`` `LN${Date.now()}` `` (epoch milliseconds) — commented in the source as a
temporary number to be overridden by the trigger — and the remaining
columns left to their defaults (`status = 'pending'`, `amount_paid = 0`,
NULL derived fields). -/
def applyForLoan (nowMs : Nat) (today : Date) (loanId memberId : Nat)
    (amount interestRate : Rat) (durationMonths : Nat) (purpose : String)
    (db : DB) : DB :=
  insertLoan today.year (some ("LN" ++ toString nowMs))
    { id := loanId
      , loan_number := ""
      , member_id := memberId
      , amount := amount
      , interest_rate := interestRate
      , duration_months := durationMonths
      , purpose := purpose
      , status := LoanStatus.pending
      , application_date := today
      , approval_date := none
      , due_date := none
      , total_amount_due := none
      , amount_paid := 0
      , balance := none
      , created_year := today.year } db

/-- Member-number string built by `handleAddMember` (`MembersSection.tsx`):
`` `MB${String(memberCount + 1).padStart(4, '0')}` ``. -/
def handleAddMemberNumber (memberCount : Nat) : String :=
  "MB" ++ jsPadStart (toString (memberCount + 1)) 4 '0'

/-- Dashboard operation `handleAddMember` (`MembersSection.tsx`): inserts a
member row supplying its own `MB`-prefixed member number (computed from the
fetched member count), `status: "active"` and zero totals. -/
def handleAddMember (memberId userId : Nat) (fullName : String) (db : DB) :
    DB :=
  insertMember (some (handleAddMemberNumber db.members.length))
    { id := memberId
      , member_number := ""
      , user_id := userId
      , full_name := fullName
      , total_savings := 0
      , total_loans := 0 } db

/-- Signup path `handle_new_user()` (trigger on `auth.users`): inserts a
member row without a member number, so the `generate_member_number`
trigger fills it. -/
def handleNewUserMember (memberId userId : Nat) (fullName : String)
    (db : DB) : DB :=
  insertMember none
    { id := memberId
      , member_number := ""
      , user_id := userId
      , full_name := fullName
      , total_savings := 0
      , total_loans := 0 } db

/-- Security-definer function `public.has_role(_user_id, _role)`
(20251108 migration): true iff `user_roles` holds that (user, role) pair. -/
def has_role (user_roles : List UserRoleRow) (uid : Nat) (r : AppRole) :
    Bool :=
  user_roles.any (fun x => x.user_id = uid && x.role = r)

/-- RLS policy `"Admins can record payments" ON loan_payments FOR INSERT`
(final revision): `WITH CHECK (has_role(auth.uid(), 'admin') OR
has_role(auth.uid(), 'treasurer'))`.  The inserted row `p` is carried to
show the check does not inspect it (ownership of the target loan is
irrelevant). -/
def loanPaymentInsertAllowed (user_roles : List UserRoleRow) (uid : Nat)
    (p : LoanPaymentRow) : Bool :=
  has_role user_roles uid AppRole.admin
    || has_role user_roles uid AppRole.treasurer

/-- Error kinds of the `approveLoan` contract (spec §7 taxonomy). -/
inductive ApproveError where
  | invalidTransition
  | notFound
deriving DecidableEq, Repr

/-- Modelled from the spec: the `approveLoan(loanId, approvedBy)` contract
of §4.2/§6, whose explicit transition guard is missing from the
implementation (the spec notes the legacy trigger only guards
recomputation and prescribes: fails with InvalidTransition if the current
status is not `pending`).  On a pending loan it performs the repository's
status update, which fires `calculate_loan_total`. -/
def approveLoanContract (today : Date) (loanId : Nat) (db : DB) :
    Except ApproveError DB :=
  match db.loans.find? (fun l => l.id = loanId) with
  | none => Except.error ApproveError.notFound
  | some l =>
    if l.status = LoanStatus.pending then
      Except.ok (updateLoanStatus today loanId LoanStatus.approved db)
    else
      Except.error ApproveError.invalidTransition

/-- The mutating operations the repository's own code paths can issue
against the store (form submissions, dashboard actions and the deletes the
RLS policies admit). -/
inductive Op where
  | recordSavings (today : Date) (txId memberId : Nat) (amount : Rat)
      (ty : TxType) (descr receipt : Option String) (recordedBy : Nat)
  | applyLoan (nowMs : Nat) (today : Date) (loanId memberId : Nat)
      (amount rate : Rat) (months : Nat) (purpose : String)
  | setLoanStatus (today : Date) (loanId : Nat) (st : LoanStatus)
  | recordPayment (today : Date) (payId loanId : Nat) (amount : Rat)
      (recordedBy : Nat) (loanNumber : String)
  | addMemberDashboard (memberId userId : Nat) (fullName : String)
  | signupMember (memberId userId : Nat) (fullName : String)
  | delSavings (txId : Nat)
  | delPayment (today : Date) (payId : Nat)

/-- Effect of one operation, as an atomic transaction that may fail. -/
def runOp (op : Op) (db : DB) : Except TriggerError DB :=
  match op with
  | Op.recordSavings today txId memberId amount ty descr receipt recordedBy =>
    Except.ok (recordSavingsTransaction today txId memberId amount ty
      descr receipt recordedBy db)
  | Op.applyLoan nowMs today loanId memberId amount rate months purpose =>
    Except.ok (applyForLoan nowMs today loanId memberId amount rate months
      purpose db)
  | Op.setLoanStatus today loanId st =>
    Except.ok (updateLoanStatus today loanId st db)
  | Op.recordPayment today payId loanId amount recordedBy loanNumber =>
    Except.ok (confirmPayment today payId loanId amount recordedBy
      loanNumber db)
  | Op.addMemberDashboard memberId userId fullName =>
    Except.ok (handleAddMember memberId userId fullName db)
  | Op.signupMember memberId userId fullName =>
    Except.ok (handleNewUserMember memberId userId fullName db)
  | Op.delSavings txId => deleteSavings txId db
  | Op.delPayment today payId => deleteLoanPayment today payId db

/-- A failed operation is rolled back: the state is unchanged. -/
def step (db : DB) (op : Op) : DB :=
  match runOp op db with
  | Except.ok d => d
  | Except.error _ => db

/-- Run a sequence of operations from an initial state. -/
def run (db : DB) (ops : List Op) : DB :=
  ops.foldl step db

/-- All columns of a loan row except the derived `amount_paid` and
`balance`, used to state frame properties of payment recording. -/
def loanFrame (l : LoanRow) :
    Nat × String × Nat × Rat × Rat × Nat × String × LoanStatus × Date ×
      Option Date × Option Date × Option Rat × Nat :=
  (l.id, l.loan_number, l.member_id, l.amount, l.interest_rate,
    l.duration_months, l.purpose, l.status, l.application_date,
    l.approval_date, l.due_date, l.total_amount_due, l.created_year)

/- Concrete fixtures used by witnesses and counterexamples. -/

/-- A sample current date. -/
def d2025 : Date := ⟨2025, 10, 11⟩

/-- Member 1 with no savings yet. -/
def memberA : MemberRow := ⟨1, "ALF0001", 10, "Alice", 0, 0⟩

/-- Member 2 with no savings yet. -/
def memberB : MemberRow := ⟨2, "ALF0002", 20, "Bob", 0, 0⟩

/-- Store holding the two sample members and nothing else. -/
def dbMembers : DB := ⟨[memberA, memberB], [], [], [], []⟩

/-- A deposit of 100 for member 1. -/
def depositTx : SavingsRow := ⟨1, 1, 100, TxType.deposit, d2025, none, none, 10, none⟩

/-- Store after recording `depositTx`. -/
def dbDeposit : DB := insertSavings depositTx dbMembers

/-- A pending loan of 10000 at 10% over 12 months for member 1. -/
def pendingLoan : LoanRow :=
  ⟨1, "LN20250001", 1, 10000, 10, 12, "business", LoanStatus.pending,
    d2025, none, none, none, 0, none, 2025⟩

/-- Store holding `pendingLoan`. -/
def dbPending : DB := { dbMembers with loans := [pendingLoan] }

/-- Store after approving the pending loan. -/
def dbApproved : DB := confirmApproveLoan d2025 1 dbPending

/-- Store after recording payments of 4000 then 3000 on the approved loan. -/
def dbPaid : DB :=
  confirmPayment d2025 2 1 3000 99 "LN20250001"
    (confirmPayment d2025 1 1 4000 99 "LN20250001" dbApproved)

/-- The empty store. -/
def dbEmpty : DB := ⟨[], [], [], [], []⟩

/-- The approved 10000-at-10% loan, written out literally: the row
produced by approving `pendingLoan` on `d2025`. -/
def approvedLoan : LoanRow :=
  ⟨1, "LN20250001", 1, 10000, 10, 12, "business", LoanStatus.approved,
    d2025, some d2025, some ⟨2026, 10, 11⟩, some 11000, 0, some 11000, 2025⟩

/-- Store holding the literal approved loan. -/
def dbApprovedLit : DB := { dbMembers with loans := [approvedLoan] }

/-- A payment of 4000 on loan 1. -/
def firstPayment : LoanPaymentRow := ⟨1, 1, 4000, d2025, some "cash", 99, none⟩

/-- The approved loan after one 4000 payment, written out literally. -/
def paidLoan : LoanRow :=
  ⟨1, "LN20250001", 1, 10000, 10, 12, "business", LoanStatus.approved,
    d2025, some d2025, some ⟨2026, 10, 11⟩, some 11000, 4000, some 7000, 2025⟩

/-- The loan produced by approving `pendingLoan` after a 4000 payment was
already recorded, written out literally: `balance` equals the full
`total_amount_due` even though `amount_paid = 4000`. -/
def lateApprovedLoan : LoanRow :=
  ⟨1, "LN20250001", 1, 10000, 10, 12, "business", LoanStatus.approved,
    d2025, some d2025, some ⟨2026, 10, 11⟩, some 11000, 4000, some 11000, 2025⟩

/- Helper lemmas. -/

/-- The `calculate_loan_total` trigger is the identity on a row update that
does not change the status (in particular on `update_loan_balance`'s inner
`UPDATE loans`): the recompute guard requires the status to change to
`approved` from something else. -/
theorem calculate_loan_total_same_status (today : Date) (l : LoanRow)
    (s : Rat) (b : Option Rat) :
    calculate_loan_total today l { l with amount_paid := s, balance := b }
      = { l with amount_paid := s, balance := b } := by
  unfold calculate_loan_total
  by_cases hl : l.status = LoanStatus.approved <;> simp [hl]

/-- C1: updating a loan's status to `approved` from any other status sets
`total_amount_due = amount + amount * interest_rate / 100` (simple
interest), `balance = total_amount_due`, `approval_date` to the current
date, and `due_date = approval_date + duration_months` calendar months;
all other columns keep their values. -/
theorem approval_sets_interest_balance_and_dates (today : Date)
    (old : LoanRow) (h : old.status ≠ LoanStatus.approved) :
    calculate_loan_total today old { old with status := LoanStatus.approved }
      = { old with
            status := LoanStatus.approved
            , total_amount_due :=
                some (old.amount + old.amount * old.interest_rate / 100)
            , balance :=
                some (old.amount + old.amount * old.interest_rate / 100)
            , approval_date := some today
            , due_date := some (addMonths today old.duration_months) } := by
  simp [calculate_loan_total, h]

/-- Witness for C1 at the spec's example: principal 10000, rate 10,
duration 12 gives `total_amount_due = 11000` and `balance = 11000` right
after approval, with a due date one year later. -/
theorem approval_sets_interest_balance_and_dates_witness :
    (calculate_loan_total d2025 pendingLoan
        { pendingLoan with status := LoanStatus.approved }).total_amount_due
      = some 11000
    ∧ (calculate_loan_total d2025 pendingLoan
        { pendingLoan with status := LoanStatus.approved }).balance
      = some 11000
    ∧ (calculate_loan_total d2025 pendingLoan
        { pendingLoan with status := LoanStatus.approved }).approval_date
      = some d2025
    ∧ (calculate_loan_total d2025 pendingLoan
        { pendingLoan with status := LoanStatus.approved }).due_date
      = some ⟨2026, 10, 11⟩ := by
  have h := approval_sets_interest_balance_and_dates d2025 pendingLoan
    (by decide)
  rw [h]
  refine ⟨?_, ?_, rfl, by decide⟩ <;> norm_num [pendingLoan]

/-- C2 (code evaluated at the failing input): recording a deposit of 100
for member 1 does set `total_savings = 100`; but (a) an UPDATE moving that
savings row to member 2 recomputes only member 2, leaving member 1's
stored total at 100 while the signed sum of member 1's transactions is 0,
and (b) any DELETE of a savings row makes the `update_member_totals`
trigger dereference the unassigned `NEW` row and error, rolling the delete
back, so the claimed recompute-on-delete never happens. -/
theorem member_totals_stale_after_update_and_delete_fails :
    dbDeposit.members.map (fun m => (m.id, m.total_savings))
      = [(1, 100), (2, 0)]
    ∧ ((updateSavings 1 (fun s => { s with member_id := 2 }) dbDeposit).toOption.map
        (fun d => (d.members.map (fun m => (m.id, m.total_savings)),
          signedSavingsSum d.savings 1))
      = some ([(1, 100), (2, 100)], 0))
    ∧ deleteSavings 1 dbDeposit
        = Except.error TriggerError.recordNewNotAssigned
    ∧ step dbDeposit (Op.delSavings 1) = dbDeposit := by
  norm_num [dbDeposit, dbMembers, memberA, memberB, depositTx,
    insertSavings, updateSavings, deleteSavings, update_member_totals,
    signedSavingsSum, fireRowTriggers, step, runOp, Except.toOption,
    d2025]

/-- C4 (code evaluated at the failing input): on the loan with
`total_amount_due = 11000`, recording payments of 4000 then 3000 does give
`amount_paid = 7000` and `balance = 4000`; but deleting the 3000 payment
does not yield `amount_paid = 4000`: the `update_loan_balance` trigger
dereferences the unassigned `NEW` row on DELETE and errors, rolling the
delete back, so the state is unchanged. -/
theorem payment_delete_fails_instead_of_recomputing :
    dbPaid.loans.map (fun l => (l.total_amount_due, l.amount_paid, l.balance))
      = [(some 11000, 7000, some 4000)]
    ∧ deleteLoanPayment d2025 2 dbPaid
        = Except.error TriggerError.recordNewNotAssigned
    ∧ step dbPaid (Op.delPayment d2025 2) = dbPaid := by
  norm_num +decide [dbPaid, dbApproved, dbPending, dbMembers, memberA, memberB,
    pendingLoan, confirmApproveLoan, confirmPayment, updateLoanStatus,
    insertLoanPayment, deleteLoanPayment, update_loan_balance,
    calculate_loan_total, paymentsSum, fireRowTriggers, step, runOp,
    d2025]

/-- C7 (code evaluated at the failing input): the loan-application form
supplies `loan_number = "LN" + Date.now()` (epoch milliseconds), which is
neither NULL nor empty, so the `generate_loan_number` trigger keeps it —
the stored number is not of the `LN<year><per-year sequence>` form the
trigger (and the form's own comment) intend.  The loan is created with
status `pending` as claimed. -/
theorem applied_loan_keeps_timestamp_number :
    (applyForLoan 1760000000000 d2025 1 1 10000 10 12 "business"
        dbMembers).loans.map (fun l => (l.loan_number, l.status))
      = [("LN1760000000000", LoanStatus.pending)]
    ∧ generate_loan_number 2025 [] none = "LN20250001"
    ∧ ("LN1760000000000" : String) ≠ "LN20250001" := by
  decide

/-- C6 counterexample: the first member registered through the dashboard's
`handleAddMember` receives `member_number = "MB0001"`, not the claimed
`"ALF0001"` — the handler supplies its own `MB`-prefixed number, which the
`generate_member_number` trigger keeps. -/
theorem first_dashboard_member_gets_mb_number :
    (handleAddMember 1 10 "Jane" dbEmpty).members.map
        (fun m => m.member_number)
      = ["MB0001"]
    ∧ ("MB0001" : String) ≠ "ALF0001" := by
  decide

/-- Unfolding of `insertLoanPayment`: the payment row is appended and the
referenced loan's `amount_paid` and `balance` are recomputed from the full
payment set; the inner `calculate_loan_total` firing is the identity since
the loan's status does not change. -/
theorem insertLoanPayment_eq (today : Date) (p : LoanPaymentRow) (db : DB) :
    insertLoanPayment today p db =
      { db with
          loan_payments := db.loan_payments ++ [p]
          , loans := db.loans.map (fun l =>
              if l.id = p.loan_id then
                { l with
                    amount_paid := paymentsSum (db.loan_payments ++ [p]) p.loan_id
                    , balance := l.total_amount_due.map (fun t =>
                        t - paymentsSum (db.loan_payments ++ [p]) p.loan_id) }
              else l) } := by
  simp only [insertLoanPayment, update_loan_balance,
    calculate_loan_total_same_status]

/-- Store holding a payment of 4000 recorded while the loan was still
pending, after which the loan is approved: the approval trigger sets
`balance := total_amount_due` without subtracting `amount_paid`. -/
def dbLateApproval : DB :=
  confirmApproveLoan d2025 1
    (confirmPayment d2025 1 1 4000 99 "LN20250001" dbPending)

/-- C3 counterexample: in the reachable state where a payment of 4000 was
recorded before approval, the approved loan has `total_amount_due = 11000`,
`amount_paid = 4000` and `balance = 11000`, so
`balance ≠ total_amount_due − amount_paid` even though `total_amount_due`
is set — the identity does not hold at all times past approval. -/
theorem balance_identity_fails_when_payment_precedes_approval :
    dbLateApproval.loans.map
        (fun l => (l.total_amount_due, l.amount_paid, l.balance))
      = [(some 11000, 4000, some 11000)]
    ∧ ∃ l ∈ dbLateApproval.loans,
        l.total_amount_due.isSome
        ∧ l.balance ≠ l.total_amount_due.map (fun t => t - l.amount_paid) := by
  refine ⟨?_, lateApprovedLoan, ?_, by rfl, by norm_num [lateApprovedLoan]⟩ <;>
    norm_num +decide [dbLateApproval, dbPending, dbMembers, memberA,
      memberB, pendingLoan, lateApprovedLoan, confirmApproveLoan,
      confirmPayment, updateLoanStatus, insertLoanPayment,
      update_loan_balance, calculate_loan_total, paymentsSum, addMonths,
      daysInMonth, isLeapYear, d2025]

/-- C3 as amended: after every (always-successful) insert of a loan
payment, the referenced loan's `amount_paid` equals the sum of that loan's
payments and `balance = total_amount_due − amount_paid` whenever
`total_amount_due` is set.  (Approval itself can break the identity when
payments predate it, and deletes of payments never recompute because they
abort in the trigger.) -/
theorem payment_insert_restores_loan_identity (today : Date)
    (p : LoanPaymentRow) (db : DB) (l' : LoanRow)
    (hmem : l' ∈ (insertLoanPayment today p db).loans)
    (hid : l'.id = p.loan_id) :
    l'.amount_paid
        = paymentsSum (insertLoanPayment today p db).loan_payments p.loan_id
    ∧ l'.balance = l'.total_amount_due.map (fun t => t - l'.amount_paid) := by
  rw [insertLoanPayment_eq] at hmem ⊢
  simp only [List.mem_map] at hmem
  obtain ⟨l, hl, heq⟩ := hmem
  by_cases h : l.id = p.loan_id
  · rw [if_pos h] at heq
    subst heq
    refine ⟨rfl, ?_⟩
    cases l.total_amount_due <;> rfl
  · rw [if_neg h] at heq
    subst heq
    exact absurd hid h

/-- Witness for the amended C3: recording a payment of 4000 on the
approved 11000 loan yields a loan row whose `amount_paid` is the payment
sum and whose `balance` is `total_amount_due` minus it. -/
theorem payment_insert_restores_loan_identity_witness :
    paidLoan ∈ (insertLoanPayment d2025 firstPayment dbApprovedLit).loans
    ∧ paidLoan.id = firstPayment.loan_id
    ∧ paidLoan.amount_paid = paymentsSum
        (insertLoanPayment d2025 firstPayment dbApprovedLit).loan_payments
        firstPayment.loan_id
    ∧ paidLoan.balance
        = paidLoan.total_amount_due.map (fun t => t - paidLoan.amount_paid) := by
  have hmem : paidLoan ∈ (insertLoanPayment d2025 firstPayment
      dbApprovedLit).loans := by
    rw [insertLoanPayment_eq]
    norm_num +decide [dbApprovedLit, dbMembers, approvedLoan, firstPayment,
      paymentsSum, paidLoan, d2025]
  have h := payment_insert_restores_loan_identity d2025 firstPayment
    dbApprovedLit paidLoan hmem (by rfl)
  exact ⟨hmem, rfl, h.1, h.2⟩

/-- C9: recording a loan payment changes only the derived `amount_paid`
and `balance` columns of the loans table (every other loan column — id,
number, member, principal `amount`, rate, duration, purpose, `status`,
dates including `due_date`, `total_amount_due` — is unchanged), appends
exactly the new payment row, and leaves members and savings untouched. -/
theorem payment_recording_updates_only_derived_fields (today : Date)
    (p : LoanPaymentRow) (db : DB) :
    (insertLoanPayment today p db).loans.map loanFrame
        = db.loans.map loanFrame
    ∧ (insertLoanPayment today p db).loan_payments = db.loan_payments ++ [p]
    ∧ (insertLoanPayment today p db).members = db.members
    ∧ (insertLoanPayment today p db).savings = db.savings := by
  rw [insertLoanPayment_eq]
  refine ⟨?_, rfl, rfl, rfl⟩
  show (db.loans.map _).map loanFrame = _
  rw [List.map_map]
  apply List.map_congr_left
  intro l _
  by_cases h : l.id = p.loan_id <;> simp [h, loanFrame, Function.comp]

/-- C5: approving a loan that is not `pending` fails with
InvalidTransition under the `approveLoanContract` (spec-modelled guard);
and when every stored row for the loan id is already `approved`, the
repository's own second approval call (`confirmApproveLoan`) leaves
`total_amount_due` and `due_date` of every loan unchanged, because the
`calculate_loan_total` recompute guard requires the previous status to
differ from `approved`. -/
theorem second_approval_rejected_and_no_recompute (today : Date) (db : DB)
    (loanId : Nat) (l : LoanRow)
    (hfind : db.loans.find? (fun x => x.id = loanId) = some l)
    (hst : l.status ≠ LoanStatus.pending) :
    approveLoanContract today loanId db
        = Except.error ApproveError.invalidTransition
    ∧ ((∀ x ∈ db.loans, x.id = loanId → x.status = LoanStatus.approved) →
        (confirmApproveLoan today loanId db).loans.map
            (fun x => (x.total_amount_due, x.due_date))
          = db.loans.map (fun x => (x.total_amount_due, x.due_date))) := by
  constructor
  · simp [approveLoanContract, hfind, hst]
  · intro hall
    show (db.loans.map _).map _ = _
    rw [List.map_map]
    apply List.map_congr_left
    intro x hx
    by_cases h : x.id = loanId
    · have hap := hall x hx h
      simp [h, Function.comp, calculate_loan_total, hap]
    · simp [h, Function.comp]

/-- Witness for C5: on the store holding the already-approved loan, the
contract call errors with InvalidTransition and a second
`confirmApproveLoan` leaves `total_amount_due` and `due_date` unchanged. -/
theorem second_approval_rejected_and_no_recompute_witness :
    approveLoanContract d2025 1 dbApprovedLit
        = Except.error ApproveError.invalidTransition
    ∧ (confirmApproveLoan d2025 1 dbApprovedLit).loans.map
          (fun x => (x.total_amount_due, x.due_date))
        = dbApprovedLit.loans.map
          (fun x => (x.total_amount_due, x.due_date)) := by
  have h := second_approval_rejected_and_no_recompute d2025 dbApprovedLit 1
    approvedLoan (by rfl) (by decide)
  exact ⟨h.1, h.2 (by decide)⟩

/-- C6 as amended: a member inserted without a supplied member number (the
signup path) receives `"ALF" ++ LPAD(count + 1, 4, '0')`, so the Nth
member receives the ALF-form number when no member was deleted; and LPAD
coincides with plain (non-truncating) zero-padding while the sequence
number has at most 4 digits.  (The dashboard `handleAddMember` path
instead supplies its own MB-prefixed number, which the trigger keeps.) -/
theorem signup_member_numbers_are_alf_sequential (db : DB)
    (row : MemberRow) (n : Nat) (h : db.members.length + 1 = n) :
    (insertMember none row db).members.map (fun m => m.member_number)
      = db.members.map (fun m => m.member_number)
        ++ ["ALF" ++ lpad (toString n) 4 '0']
    ∧ ((toString n).length ≤ 4 →
        lpad (toString n) 4 '0' = jsPadStart (toString n) 4 '0') := by
  constructor
  · subst h
    simp [insertMember, generate_member_number]
  · intro hlen
    unfold lpad jsPadStart
    by_cases hge : (toString n).length ≥ 4
    · have h4 : (toString n).length = 4 := le_antisymm hlen hge
      rw [if_pos hge, if_pos hge]
      calc String.mk ((toString n).data.take 4)
          = String.mk ((toString n).data.take (toString n).data.length) := by
            rw [show (toString n).data.length = 4 from h4]
        _ = String.mk (toString n).data := by rw [List.take_length]
        _ = toString n := rfl
    · rw [if_neg hge, if_neg hge]

/-- Witness for the amended C6: the first member registered through the
signup path gets `"ALF0001"`. -/
theorem signup_member_numbers_are_alf_sequential_witness :
    (insertMember none memberA dbEmpty).members.map
        (fun m => m.member_number)
      = ["ALF" ++ lpad (toString 1) 4 '0']
    ∧ lpad (toString 1) 4 '0' = jsPadStart (toString 1) 4 '0'
    ∧ ("ALF" ++ lpad (toString 1) 4 '0' : String) = "ALF0001" := by
  have h := signup_member_numbers_are_alf_sequential dbEmpty memberA 1
    (by rfl)
  refine ⟨?_, h.2 (by decide), by decide⟩
  have h1 := h.1
  simpa [dbEmpty] using h1

/-- C8: an actor whose role set contains only `member` is denied insertion
of a loan payment; the RLS check is independent of the inserted row (so
ownership of the target loan is irrelevant); and the insert is allowed
exactly when the actor holds the `admin` or `treasurer` role. -/
theorem only_admin_or_treasurer_can_record_payments
    (user_roles : List UserRoleRow) (uid : Nat) :
    ((∀ x ∈ user_roles, x.user_id = uid → x.role = AppRole.member) →
      ∀ p : LoanPaymentRow,
        loanPaymentInsertAllowed user_roles uid p = false)
    ∧ (∀ p q : LoanPaymentRow,
        loanPaymentInsertAllowed user_roles uid p
          = loanPaymentInsertAllowed user_roles uid q)
    ∧ (∀ p : LoanPaymentRow,
        loanPaymentInsertAllowed user_roles uid p = true
          ↔ (has_role user_roles uid AppRole.admin = true
              ∨ has_role user_roles uid AppRole.treasurer = true)) := by
  refine ⟨?_, fun p q => rfl,
    fun p => by simp [loanPaymentInsertAllowed]⟩
  intro h p
  have hr : ∀ r : AppRole, r ≠ AppRole.member →
      has_role user_roles uid r = false := by
    intro r hrm
    rw [has_role, List.any_eq_false]
    intro x hx
    simp only [Bool.and_eq_true, decide_eq_true_eq]
    rintro ⟨h1, h2⟩
    exact hrm (h2 ▸ h x hx h1)
  simp [loanPaymentInsertAllowed, hr AppRole.admin (by simp),
    hr AppRole.treasurer (by simp)]

/-- Witness for C8: a user holding only the `member` role cannot insert
the sample payment, even though the payment targets a loan of their own
member record. -/
theorem only_admin_or_treasurer_can_record_payments_witness :
    loanPaymentInsertAllowed [⟨5, AppRole.member⟩] 5 firstPayment
      = false := by
  exact (only_admin_or_treasurer_can_record_payments
    [⟨5, AppRole.member⟩] 5).1 (by decide) firstPayment

/-- Rows produced by `deleteSavings` with a successful outcome come from
the original savings table (the statement only removes rows; a delete
that actually matches a row aborts in the trigger). -/
theorem deleteSavings_ok_savings_sub (txId : Nat) (db d : DB)
    (hd : deleteSavings txId db = Except.ok d) :
    ∀ s ∈ d.savings, s ∈ db.savings := by
  unfold deleteSavings at hd
  cases haff : db.savings.filter (fun s => s.id = txId) with
  | nil =>
    rw [haff] at hd
    simp only [fireRowTriggers, Except.ok.injEq] at hd
    subst hd
    intro s hs
    exact (List.mem_filter.mp hs).1
  | cons a as =>
    rw [haff] at hd
    simp [fireRowTriggers, update_member_totals] at hd

/-- A successful `deleteLoanPayment` leaves the savings table unchanged
(it can only succeed when no row matched). -/
theorem deleteLoanPayment_ok_savings (today : Date) (payId : Nat)
    (db d : DB) (hd : deleteLoanPayment today payId db = Except.ok d) :
    d.savings = db.savings := by
  unfold deleteLoanPayment at hd
  cases haff : db.loan_payments.filter (fun p => p.id = payId) with
  | nil =>
    rw [haff] at hd
    simp only [fireRowTriggers, Except.ok.injEq] at hd
    subst hd
    rfl
  | cons a as =>
    rw [haff] at hd
    simp [fireRowTriggers, update_loan_balance] at hd

/-- One repository operation preserves "every savings row has NULL
`balance_after`": the only operation that inserts savings rows is the
recording form, which never supplies the column, and no trigger or other
operation writes to the savings table. -/
theorem step_preserves_balance_after_none (op : Op) (db : DB)
    (h : ∀ s ∈ db.savings, s.balance_after = none) :
    ∀ s ∈ (step db op).savings, s.balance_after = none := by
  cases op with
  | recordSavings today txId memberId amount ty descr receipt recordedBy =>
    intro s hs
    simp only [step, runOp, recordSavingsTransaction, insertSavings,
      update_member_totals, List.mem_append, List.mem_singleton] at hs
    rcases hs with hmem | hmem
    · exact h s hmem
    · subst hmem
      rfl
  | applyLoan nowMs today loanId memberId amount rate months purpose =>
    exact h
  | setLoanStatus today loanId st => exact h
  | recordPayment today payId loanId amount recordedBy loanNumber =>
    exact h
  | addMemberDashboard memberId userId fullName => exact h
  | signupMember memberId userId fullName => exact h
  | delSavings txId =>
    intro s hs
    cases hrun : deleteSavings txId db with
    | error e =>
      have : step db (Op.delSavings txId) = db := by
        simp [step, runOp, hrun]
      rw [this] at hs
      exact h s hs
    | ok d =>
      have hstep : step db (Op.delSavings txId) = d := by
        simp [step, runOp, hrun]
      rw [hstep] at hs
      exact h s (deleteSavings_ok_savings_sub txId db d hrun s hs)
  | delPayment today payId =>
    intro s hs
    cases hrun : deleteLoanPayment today payId db with
    | error e =>
      have : step db (Op.delPayment today payId) = db := by
        simp [step, runOp, hrun]
      rw [this] at hs
      exact h s hs
    | ok d =>
      have hstep : step db (Op.delPayment today payId) = d := by
        simp [step, runOp, hrun]
      rw [hstep] at hs
      rw [deleteLoanPayment_ok_savings today payId db d hrun] at hs
      exact h s hs

/-- C10: over any sequence of repository operations from a state whose
savings rows all have NULL `balance_after`, every savings row still has
NULL `balance_after`: the recording form never supplies the column and no
trigger computes it, so the running-balance snapshot is never populated. -/
theorem balance_after_never_populated (db : DB)
    (h : ∀ s ∈ db.savings, s.balance_after = none) (ops : List Op) :
    ∀ s ∈ (run db ops).savings, s.balance_after = none := by
  induction ops generalizing db with
  | nil => exact h
  | cons op ops ih =>
    exact ih (step db op) (step_preserves_balance_after_none op db h)

/-- Witness for C10: recording a deposit through the form leaves every
stored savings row with NULL `balance_after`. -/
theorem balance_after_never_populated_witness :
    (∀ s ∈ dbMembers.savings, s.balance_after = none)
    ∧ (∀ s ∈ (run dbMembers
          [Op.recordSavings d2025 1 1 100 TxType.deposit none none 10]).savings,
        s.balance_after = none) := by
  have h0 : ∀ s ∈ dbMembers.savings, s.balance_after = none := by
    intro s hs
    simp [dbMembers] at hs
  exact ⟨h0, balance_after_never_populated dbMembers h0 _⟩

end Cbo
